import Mathlib

/-!
Verification of the greeting application (`main.py`): a shallow embedding of
its logging lifecycle (`LogManager.setup_logging`, `LogManager._cleanup_old_logs`)
and its error-classification layer (`Application.greet`, `Application.run`, `main`).

Modelling conventions:
- Python exceptions are the inductive `PyExc`; `except Exception` catches
  exactly the kinds for which `PyExc.isException` is `true` (`ApplicationError`
  and generic errors), and never `KeyboardInterrupt` or `SystemExit`,
  mirroring Python 3 semantics.
- Fallible code is `Except PyExc`-valued; a `try/except` block is an explicit
  `match` on the body's result that re-raises non-`Exception` kinds.
- The `logging` module is modelled by `Logger`/`Handler`/`LogState`: a record
  submitted to the `main_app` logger is dropped unless its level reaches the
  logger's effective level, and is then delivered to each attached handler
  whose own threshold it reaches, plus (by propagation) to the root logger's
  handlers.  Numeric levels follow Python (DEBUG = 10, INFO = 20,
  WARNING = 30, ERROR = 40); the root logger defaults to WARNING.
- Console handler lines and direct `print` calls are distinguished in the
  `stdout`/`stderr` streams by the `OutLine` constructors, since the console
  handler prefixes a timestamp and level while `print` emits the bare text.
- The filesystem seen by the cleanup pass is a list of files with a
  modification time and flags saying whether `stat`/`unlink` raise
  (permission errors); directory enumeration failure is a flag on `FS`.
- Wall-clock values (today's date string, the current timestamp, the
  timestamp-derived correlation id) are passed in as parameters.
- Log-record message text follows the `f`-strings in the source; the
  rendered traceback and the repr of parsed arguments are abbreviated, as no
  claim depends on their exact text.
-/

namespace GreetApp

/-- Python exception kinds relevant to `main.py`.  `applicationError` is the
`ApplicationError` subclass of `Exception`; `otherError` stands for any other
`Exception` (OSError from `mkdir`/`stat`/`unlink`, RuntimeError, ...);
`keyboardInterrupt` and `systemExit` derive from `BaseException` only. -/
inductive PyExc where
  | applicationError (msg : String)
  | otherError (msg : String)
  | keyboardInterrupt
  | systemExit (code : Int)
  deriving DecidableEq, Repr

/-- Whether `except Exception` catches this kind (Python 3: `KeyboardInterrupt`
and `SystemExit` are not `Exception` subclasses). -/
def PyExc.isException : PyExc → Bool
  | .applicationError _ => true
  | .otherError _ => true
  | .keyboardInterrupt => false
  | .systemExit _ => false

/-- `str(e)` for the modelled exception. -/
def PyExc.message : PyExc → String
  | .applicationError m => m
  | .otherError m => m
  | .keyboardInterrupt => "KeyboardInterrupt"
  | .systemExit c => toString c

/-- Logging severities used by `main.py`. -/
inductive Level where
  | debug
  | info
  | warning
  | error
  | critical
  deriving DecidableEq, Repr

/-- Numeric value of a severity, as in Python `logging`. -/
def Level.toNat : Level → Nat
  | .debug => 10
  | .info => 20
  | .warning => 30
  | .error => 40
  | .critical => 50

/-- A log record: severity plus message text. -/
structure Record where
  level : Level
  msg : String
  deriving DecidableEq, Repr

/-- A handler's destination: the `TimedRotatingFileHandler` (file name and
`backupCount`), the `StreamHandler(sys.stdout)` console handler, or a
`StreamHandler` on stderr (what `logging.basicConfig` installs). -/
inductive Sink where
  | file (name : String) (backupCount : Nat)
  | consoleOut
  | consoleErr
  deriving DecidableEq, Repr

/-- A configured handler: destination plus numeric level threshold
(0 = NOTSET accepts everything). -/
structure Handler where
  sink : Sink
  threshold : Nat
  deriving DecidableEq, Repr

/-- A logger: optional numeric level (none = NOTSET) and attached handlers. -/
structure Logger where
  level : Option Nat
  handlers : List Handler
  deriving DecidableEq, Repr

/-- The logging state the program manipulates: the `main_app` logger and the
root logger (which `main_app` propagates to). -/
structure LogState where
  mainApp : Logger
  root : Logger
  deriving DecidableEq, Repr

/-- Fresh-process logging state: both loggers unconfigured; the root logger
defaults to level WARNING (30) in Python. -/
def LogState.initial : LogState :=
  { mainApp := { level := none, handlers := [] }
    root := { level := some 30, handlers := [] } }

/-- Effective level of the `main_app` logger: its own level if set, else the
root's, else WARNING. -/
def LogState.mainEff (st : LogState) : Nat :=
  match st.mainApp.level with
  | some l => l
  | none =>
    match st.root.level with
    | some l => l
    | none => 30

/-- Effective level of the root logger. -/
def LogState.rootEff (st : LogState) : Nat :=
  match st.root.level with
  | some l => l
  | none => 30

/-- A line on stdout or stderr: either bare text from `print`, or a formatted
console-handler line (timestamp, severity, message). -/
inductive OutLine where
  | printed (s : String)
  | logLine (lvl : Level) (msg : String)
  deriving DecidableEq, Repr

/-- Observable output of a program fragment: stdout lines, stderr lines,
records written to the log file, and every record submitted to a logger
(whether or not any sink accepted it). -/
structure Output where
  stdout : List OutLine
  stderr : List OutLine
  fileLines : List Record
  submitted : List Record
  deriving DecidableEq, Repr

/-- No output. -/
def Output.empty : Output := ⟨[], [], [], []⟩

/-- Concatenation of outputs, in program order. -/
def Output.append (a b : Output) : Output :=
  ⟨a.stdout ++ b.stdout, a.stderr ++ b.stderr,
   a.fileLines ++ b.fileLines, a.submitted ++ b.submitted⟩

instance : Append Output := ⟨Output.append⟩

/-- Output of a bare `print(s)` (stdout). -/
def printOut (s : String) : Output := { Output.empty with stdout := [.printed s] }

/-- Output of `print(s, file=sys.stderr)`. -/
def printErr (s : String) : Output := { Output.empty with stderr := [.printed s] }

/-- What a single handler writes for an accepted record. -/
def Handler.deliver (h : Handler) (lvl : Level) (msg : String) : Output :=
  if h.threshold ≤ lvl.toNat then
    match h.sink with
    | .file _ _ => { Output.empty with fileLines := [⟨lvl, msg⟩] }
    | .consoleOut => { Output.empty with stdout := [.logLine lvl msg] }
    | .consoleErr => { Output.empty with stderr := [.logLine lvl msg] }
  else Output.empty

/-- Deliver a record to each handler of a list in turn. -/
def deliverList (hs : List Handler) (lvl : Level) (msg : String) : Output :=
  hs.foldr (fun h acc => h.deliver lvl msg ++ acc) Output.empty

/-- `self.logger.<lvl>(msg)` on the `main_app` logger: the record is created,
dropped if below the logger's effective level, otherwise passed to the
logger's handlers and (propagation) the root's handlers. -/
def LogState.submitMain (st : LogState) (lvl : Level) (msg : String) : Output :=
  { (if st.mainEff ≤ lvl.toNat then
       deliverList (st.mainApp.handlers ++ st.root.handlers) lvl msg
     else Output.empty)
    with submitted := [⟨lvl, msg⟩] }

/-- `logging.<lvl>(msg)`: a record submitted on the root logger. -/
def LogState.submitRoot (st : LogState) (lvl : Level) (msg : String) : Output :=
  { (if st.rootEff ≤ lvl.toNat then deliverList st.root.handlers lvl msg
     else Output.empty)
    with submitted := [⟨lvl, msg⟩] }

/-! ## Filesystem model for the log directory -/

/-- A file in the log directory: name, last-modified timestamp (seconds), and
whether `stat` or `unlink` raise on it (e.g. permission denied). -/
structure LogFile where
  name : String
  mtime : Int
  statFails : Bool
  unlinkFails : Bool
  deriving DecidableEq, Repr

/-- The log directory: its files, and whether enumerating it
(`log_dir.glob(...)`) raises. -/
structure FS where
  files : List LogFile
  globFails : Bool
  deriving DecidableEq, Repr

/-- Whether `pat` occurs as a contiguous segment of `s`. -/
def containsSeg (pat : List Char) : List Char → Bool
  | [] => pat.isEmpty
  | c :: rest => pat.isPrefixOf (c :: rest) || containsSeg pat rest

/-- The glob pattern `app_*.log*` from `_cleanup_old_logs`: the name starts
with `app_` and `.log` occurs somewhere after that prefix. -/
def matchesLogGlob (name : String) : Bool :=
  "app_".toList.isPrefixOf name.toList && containsSeg ".log".toList (name.toList.drop 4)

/-- Seconds in a day, for `timedelta(days=...)`. -/
def secondsPerDay : Int := 86400

/-- `cutoff_date = datetime.now() - timedelta(days=self.retention_days)`,
as a timestamp. -/
def cutoffTime (now : Int) (retention : Nat) : Int :=
  now - secondsPerDay * retention

/-- Whether a file survives the cleanup pass: it stays unless it matches the
glob, its `stat` succeeds, it is older than the cutoff, and its `unlink`
succeeds. -/
def keepFile (cutoff : Int) (f : LogFile) : Bool :=
  !(matchesLogGlob f.name && !f.statFails && decide (f.mtime < cutoff) && !f.unlinkFails)

/-- The message of the exception raised while processing one file. -/
def fileFailMsg (f : LogFile) : String :=
  if f.statFails then "stat failed: " ++ f.name else "unlink failed: " ++ f.name

/-- The warning record `_cleanup_old_logs` logs when processing a file fails. -/
def warnRec (f : LogFile) : Record :=
  ⟨.warning, "Failed to process log file " ++ f.name ++ ": " ++ fileFailMsg f⟩

/-- The body of the inner `try` of `_cleanup_old_logs` for one matching file:
`stat` it, compare to the cutoff, `unlink` if older, log the removal at debug
level when a logger is set.  Returns whether the file was deleted. -/
def fileAttempt (cutoff : Int) (loggerSet : Bool) (st : LogState) (f : LogFile) :
    Except PyExc (Bool × Output) :=
  if f.statFails then .error (.otherError ("stat failed: " ++ f.name))
  else if f.mtime < cutoff then
    if f.unlinkFails then .error (.otherError ("unlink failed: " ++ f.name))
    else
      .ok (true,
        if loggerSet then st.submitMain .debug ("Removed old log file: " ++ f.name)
        else Output.empty)
  else .ok (false, Output.empty)

/-- One matching file with the inner `except Exception` applied: a per-file
failure is logged as a warning (when a logger is set) and the file is left in
place; non-`Exception` kinds would propagate. -/
def processFile (cutoff : Int) (loggerSet : Bool) (st : LogState) (f : LogFile) :
    Except PyExc (Bool × Output) :=
  match fileAttempt cutoff loggerSet st f with
  | .ok r => .ok r
  | .error e =>
    if e.isException then
      .ok (false,
        if loggerSet then
          st.submitMain .warning
            ("Failed to process log file " ++ f.name ++ ": " ++ e.message)
        else Output.empty)
    else .error e

/-- The `for log_file in self.log_dir.glob("app_*.log*")` loop: files not
matching the glob are never visited; matching files go through `processFile`.
Returns the surviving files (in order) and the accumulated log output. -/
def cleanupFiles (cutoff : Int) (loggerSet : Bool) (st : LogState) :
    List LogFile → Except PyExc (List LogFile × Output)
  | [] => .ok ([], Output.empty)
  | f :: rest =>
    if matchesLogGlob f.name then
      match processFile cutoff loggerSet st f with
      | .error e => .error e
      | .ok (deleted, o1) =>
        match cleanupFiles cutoff loggerSet st rest with
        | .error e => .error e
        | .ok (keep, o2) => .ok ((if deleted then keep else f :: keep), o1 ++ o2)
    else
      match cleanupFiles cutoff loggerSet st rest with
      | .error e => .error e
      | .ok (keep, o2) => .ok (f :: keep, o2)

/-- The body of the outer `try` of `_cleanup_old_logs`: compute the cutoff and
scan the directory; enumeration failure raises. -/
def cleanupAttempt (now : Int) (retention : Nat) (loggerSet : Bool) (st : LogState)
    (fs : FS) : Except PyExc (FS × Output) :=
  if fs.globFails then .error (.otherError "glob failed")
  else
    match cleanupFiles (cutoffTime now retention) loggerSet st fs.files with
    | .error e => .error e
    | .ok (files2, out) => .ok ({ files := files2, globFails := fs.globFails }, out)

/-- `LogManager._cleanup_old_logs`: the outer `except Exception` logs an error
(when a logger is set) and returns normally, leaving the directory as it was. -/
def cleanup_old_logs (now : Int) (retention : Nat) (loggerSet : Bool) (st : LogState)
    (fs : FS) : Except PyExc (FS × Output) :=
  match cleanupAttempt now retention loggerSet st fs with
  | .ok r => .ok r
  | .error e =>
    if e.isException then
      .ok (fs,
        if loggerSet then
          st.submitMain .error ("Failed to cleanup old logs: " ++ e.message)
        else Output.empty)
    else .error e

/-! ## `LogManager.setup_logging` -/

/-- Which fallible steps of `setup_logging` fail in a given scenario:
`self.log_dir.mkdir(exist_ok=True)` and the `TimedRotatingFileHandler`
construction (both raise `OSError`, an `Exception`). -/
structure SetupEnv where
  mkdirFails : Bool
  fileHandlerFails : Bool
  deriving DecidableEq, Repr

/-- `f"app_{datetime.now().strftime('%Y%m%d')}.log"`. -/
def logFileName (date : String) : String := "app_" ++ date ++ ".log"

/-- The body of the `try` in `setup_logging`, carrying the logging state at
the point of a raise (Python does not roll state back): make the directory,
set the `main_app` level from `verbose`, clear its handlers, attach the
rotating file handler (threshold DEBUG) and the stdout console handler
(threshold following `verbose`), run the cleanup pass, then log success. -/
def setupAttempt (env : SetupEnv) (verbose : Bool) (date : String) (now : Int)
    (retention : Nat) (st : LogState) (fs : FS) :
    Except (PyExc × LogState × FS) (Logger × LogState × FS × Output) :=
  if env.mkdirFails then .error (.otherError "mkdir failed", st, fs)
  else
    let lvl : Nat := if verbose then 10 else 20
    let st1 : LogState := { st with mainApp := { level := some lvl, handlers := [] } }
    if env.fileHandlerFails then
      .error (.otherError "file handler construction failed", st1, fs)
    else
      let fileH : Handler := { sink := .file (logFileName date) retention, threshold := 10 }
      let consoleH : Handler := { sink := .consoleOut, threshold := lvl }
      let st2 : LogState :=
        { st1 with mainApp := { st1.mainApp with handlers := [fileH, consoleH] } }
      match cleanup_old_logs now retention true st2 fs with
      | .error e => .error (e, st2, fs)
      | .ok (fs2, outClean) =>
        let outInit := st2.submitMain .info "Logging system initialized successfully"
        .ok (st2.mainApp, st2, fs2, outClean ++ outInit)

/-- The `except Exception` branch of `setup_logging`:
`logging.basicConfig(level=logging.INFO, ...)` (a no-op when the root logger
already has handlers, otherwise installing a stderr handler and setting the
root level to INFO), then `logging.error(...)` on the root logger, then
`return logging.getLogger('main_app')` — the same `main_app` logger object,
with whatever state it was left in. -/
def setupFallback (st : LogState) (fs : FS) (msg : String) :
    Logger × LogState × FS × Output :=
  let root2 : Logger :=
    if st.root.handlers.isEmpty then
      { level := some 20, handlers := [{ sink := .consoleErr, threshold := 0 }] }
    else st.root
  let st2 : LogState := { st with root := root2 }
  let out := st2.submitRoot .error ("Failed to setup advanced logging: " ++ msg)
  (st2.mainApp, st2, fs, out)

/-- `LogManager.setup_logging`: the try body with the `except Exception`
fallback applied.  Non-`Exception` kinds would propagate (none arise from the
modelled primitives). -/
def setup_logging (env : SetupEnv) (verbose : Bool) (date : String) (now : Int)
    (retention : Nat) (st : LogState) (fs : FS) :
    Except PyExc (Logger × LogState × FS × Output) :=
  match setupAttempt env verbose date now retention st fs with
  | .ok r => .ok r
  | .error (e, st2, fs2) =>
    if e.isException then .ok (setupFallback st2 fs2 e.message) else .error e

/-! ## `Application.greet`, `Application.run`, `main` -/

/-- How the `print(message)` call inside `greet` behaves: succeeds, raises an
`Exception` (e.g. a broken output stream), or raises `KeyboardInterrupt`. -/
inductive PrintFailure where
  | ok
  | exc (msg : String)
  | interrupt
  deriving DecidableEq, Repr

/-- `Application.greet`: log, print the fixed greeting, log again, return
`True`; an `Exception` while printing is logged (error + debug traceback) and
re-raised as `ApplicationError`; `KeyboardInterrupt` is not caught by
`except Exception` and propagates directly. -/
def greet (pf : PrintFailure) (st : LogState) : Except PyExc Bool × Output :=
  let o1 := st.submitMain .info "Executing greeting function"
  match pf with
  | .ok =>
    let o2 := printOut "Hello, world!"
    let o3 := st.submitMain .info "Greeting displayed: Hello, world!"
    (.ok true, o1 ++ (o2 ++ o3))
  | .exc m =>
    let o2 := st.submitMain .error ("Error in greeting function: " ++ m)
    let o3 := st.submitMain .debug ("Greeting function traceback: " ++ m)
    (.error (.applicationError ("Failed to display greeting: " ++ m)), o1 ++ (o2 ++ o3))
  | .interrupt => (.error .keyboardInterrupt, o1)

/-- A greeting step with a fixed outcome and no output of its own, as when the
tests replace `greet` with a stub. -/
def stubGreet (gr : Except PyExc Bool) : LogState → Except PyExc Bool × Output :=
  fun _ => (gr, Output.empty)

/-- `vars(args)` rendered into the debug message of `run`. -/
def argsMsg (verbose : Bool) : String :=
  "Command line arguments: verbose=" ++ (if verbose then "True" else "False")

/-- The `try` body of `Application.run`: set up logging, record startup and
the parsed arguments, execute the greeting, and on normal completion return
exit code 0 (or 1 had the greeting returned a falsy value).  Also reports
whether `self.logger` was assigned (it starts as `None`). -/
def runTry (env : SetupEnv) (g : LogState → Except PyExc Bool × Output)
    (verbose : Bool) (date : String) (now : Int) (retention : Nat)
    (st : LogState) (fs : FS) :
    Except PyExc Int × Output × Option Logger × LogState × FS :=
  match setup_logging env verbose date now retention st fs with
  | .error e => (.error e, Output.empty, none, st, fs)
  | .ok (lg, st1, fs1, o1) =>
    let o2 := st1.submitMain .info "Application starting"
    let o3 := st1.submitMain .debug (argsMsg verbose)
    match g st1 with
    | (.ok success, og) =>
      if success then
        (.ok 0,
         o1 ++ o2 ++ o3 ++ og ++ st1.submitMain .info "Application completed successfully",
         some lg, st1, fs1)
      else
        (.ok 1,
         o1 ++ o2 ++ o3 ++ og ++ st1.submitMain .error "Application completed with errors",
         some lg, st1, fs1)
    | (.error e, og) => (.error e, o1 ++ o2 ++ o3 ++ og, some lg, st1, fs1)

/-- The three `except` clauses of `Application.run`.  Each handler begins with
a call on `self.logger`; were `self.logger` still `None`, that call itself
would raise `AttributeError` out of the handler.  `SystemExit` matches no
clause and propagates. -/
def runCatch (e : PyExc) (errorId : String) (lgOpt : Option Logger) (st : LogState) :
    Except PyExc Int × Output :=
  match e with
  | .applicationError m =>
    match lgOpt with
    | none => (.error (.otherError "AttributeError: NoneType has no attribute error"),
               Output.empty)
    | some _ =>
      (.ok 1,
       st.submitMain .error ("Application error: " ++ m) ++ printErr ("Error: " ++ m))
  | .keyboardInterrupt =>
    match lgOpt with
    | none => (.error (.otherError "AttributeError: NoneType has no attribute info"),
               Output.empty)
    | some _ =>
      (.ok 130,
       st.submitMain .info "Application interrupted by user"
         ++ printErr "\nApplication interrupted by user.")
  | .otherError m =>
    match lgOpt with
    | none => (.error (.otherError "AttributeError: NoneType has no attribute error"),
               Output.empty)
    | some _ =>
      (.ok 1,
       st.submitMain .error ("Unexpected error [" ++ errorId ++ "]: " ++ m)
         ++ st.submitMain .debug ("Unexpected error traceback [" ++ errorId ++ "]: " ++ m)
         ++ printErr ("An unexpected error occurred. Error ID: " ++ errorId)
         ++ printErr "Please check the log files for more details.")
  | .systemExit c => (.error (.systemExit c), Output.empty)

/-- `Application.run`: try body, exception classification, and the `finally`
block, which logs the shutdown notice whenever `self.logger` is set — also
when an uncaught exception is unwinding. -/
def run (env : SetupEnv) (g : LogState → Except PyExc Bool × Output)
    (verbose : Bool) (date : String) (now : Int) (retention : Nat)
    (errorId : String) (st : LogState) (fs : FS) :
    Except PyExc Int × Output × LogState × FS :=
  match runTry env g verbose date now retention st fs with
  | (r, out, lgOpt, st1, fs1) =>
    let rc :=
      match r with
      | .ok c => (Except.ok c, Output.empty)
      | .error e => runCatch e errorId lgOpt st1
    let outFin :=
      match lgOpt with
      | some _ => st1.submitMain .info "Application shutdown"
      | none => Output.empty
    (rc.1, out ++ rc.2 ++ outFin, st1, fs1)

/-- Behaviour of `parser.parse_args()`: parsed flags, a help request
(usage on stdout, `SystemExit(0)`), or unrecognized input (usage on stderr,
`SystemExit(2)`). -/
inductive ParseOutcome where
  | parsed (verbose : Bool)
  | helpRequested
  | badArguments
  deriving DecidableEq, Repr

/-- `parse_args` as an `Except`-valued step with its console output. -/
def parseArgs : ParseOutcome → Except PyExc Bool × Output
  | .parsed v => (.ok v, Output.empty)
  | .helpRequested => (.error (.systemExit 0), printOut "usage: main.py [-h] [-v]")
  | .badArguments => (.error (.systemExit 2), printErr "usage: main.py [-h] [-v]")

/-- Result of the whole process: terminated with an exit code (a `SystemExit`
reaching the interpreter), an exception escaping `main` uncaught, or `main`
returning without exiting. -/
inductive MainOutcome where
  | exited (code : Int) (out : Output)
  | uncaught (e : PyExc) (out : Output)
  | returned (out : Output)
  deriving DecidableEq, Repr

/-- The `try` body of `main`: construct the `Application` (may fail), parse
arguments (may raise `SystemExit`), call `run` on a fresh logging state with
the default retention of 30 days, then `sys.exit(exit_code)`. -/
def mainBody (constructFails : Bool) (p : ParseOutcome) (env : SetupEnv)
    (g : LogState → Except PyExc Bool × Output) (date : String) (now : Int)
    (errorId : String) (fs : FS) : Except PyExc Unit × Output :=
  if constructFails then
    (.error (.otherError "Application construction failed"), Output.empty)
  else
    match parseArgs p with
    | (.error e, op) => (.error e, op)
    | (.ok verbose, op) =>
      match run env g verbose date now 30 errorId LogState.initial fs with
      | (.ok code, out, _, _) => (.error (.systemExit code), op ++ out)
      | (.error e, out, _, _) => (.error e, op ++ out)

/-- `main`: re-raise `SystemExit` (the process exits with its code); any other
`Exception` is printed as a critical startup error and the process exits 1;
anything else would escape uncaught. -/
def mainFn (constructFails : Bool) (p : ParseOutcome) (env : SetupEnv)
    (g : LogState → Except PyExc Bool × Output) (date : String) (now : Int)
    (errorId : String) (fs : FS) : MainOutcome :=
  match mainBody constructFails p env g date now errorId fs with
  | (.ok _, out) => .returned out
  | (.error (.systemExit c), out) => .exited c out
  | (.error e, out) =>
    if e.isException then
      .exited 1
        (out ++ printErr ("Critical error during application startup: " ++ e.message)
             ++ printErr "Unable to initialize logging system.")
    else .uncaught e out

/-! ## Concrete sample inputs used by closed theorems -/

/-- An empty, healthy log directory. -/
def emptyFS : FS := ⟨[], false⟩

/-- A setup scenario where nothing fails. -/
def noFailEnv : SetupEnv := ⟨false, false⟩

/-- The record `self.logger.info("Application shutdown")` submits. -/
def shutdownRec : Record := ⟨.info, "Application shutdown"⟩

/-- The `main_app` logger as a fully successful `setup_logging` call
configures it. -/
def setupMainLogger (verbose : Bool) (date : String) (retention : Nat) : Logger :=
  { level := some (if verbose then 10 else 20)
    handlers := [⟨.file (logFileName date) retention, 10⟩,
                 ⟨.consoleOut, if verbose then 10 else 20⟩] }

/-- The logging state after a fully successful `setup_logging` call. -/
def setupSuccessState (verbose : Bool) (date : String) (retention : Nat)
    (st : LogState) : LogState :=
  { st with mainApp := setupMainLogger verbose date retention }

/-- The logging state at the point where the file-handler construction fails:
level set and handlers cleared. -/
def setupClearedState (verbose : Bool) (st : LogState) : LogState :=
  { st with mainApp := { level := some (if verbose then 10 else 20), handlers := [] } }

/-- The logging state `setup_logging` leaves behind (the input state when the
call reports an exception, which cannot happen). -/
def setupState (env : SetupEnv) (verbose : Bool) (date : String) (now : Int)
    (retention : Nat) (st : LogState) (fs : FS) : LogState :=
  match setup_logging env verbose date now retention st fs with
  | .ok (_, st2, _, _) => st2
  | .error _ => st

/-- The logger `setup_logging` returns (the unconfigured `main_app` logger
when the call reports an exception, which cannot happen). -/
def setupLogger (env : SetupEnv) (verbose : Bool) (date : String) (now : Int)
    (retention : Nat) (st : LogState) (fs : FS) : Logger :=
  match setup_logging env verbose date now retention st fs with
  | .ok (lg, _, _, _) => lg
  | .error _ => { level := none, handlers := [] }

/-- The state after a fresh, fully successful `setup_logging` call. -/
def freshSetupState (verbose : Bool) : LogState :=
  setupState noFailEnv verbose "20260101" 0 30 LogState.initial emptyFS

/-- A healthy dated log file old enough to be deleted at `now = 8640000`,
retention 30 days. -/
def oldLogFile : LogFile := ⟨"app_20200101.log", 0, false, false⟩

/-- A healthy dated log file newer than the cutoff. -/
def newLogFile : LogFile := ⟨"app_20991231.log", 8640000, false, false⟩

/-- A file in the log directory not matching the `app_*.log*` glob. -/
def strayFile : LogFile := ⟨"readme.txt", 0, false, false⟩

/-- An old dated log file whose `unlink` raises (permission denied). -/
def lockedLogFile : LogFile := ⟨"app_20200102.log", 0, false, true⟩

/-- A log directory with one deletable old file, one new file, one stray file. -/
def sampleFS : FS := ⟨[oldLogFile, newLogFile, strayFile], false⟩

/-- A log directory with an old deletable file, an old undeletable file and a
new file. -/
def sampleFS2 : FS := ⟨[oldLogFile, lockedLogFile, newLogFile], false⟩

/-- A fully successful quiet run (`verbose=False`, `greet` succeeds, empty log
directory, fresh process). -/
def quietRun : Except PyExc Int × Output × LogState × FS :=
  run noFailEnv (greet .ok) false "20260101" 0 30 "20260101_000000"
    LogState.initial emptyFS

/-! ## Basic output lemmas -/

@[simp] theorem Output.append_stdout (a b : Output) :
    (a ++ b).stdout = a.stdout ++ b.stdout := rfl

@[simp] theorem Output.append_stderr (a b : Output) :
    (a ++ b).stderr = a.stderr ++ b.stderr := rfl

@[simp] theorem Output.append_fileLines (a b : Output) :
    (a ++ b).fileLines = a.fileLines ++ b.fileLines := rfl

@[simp] theorem Output.append_submitted (a b : Output) :
    (a ++ b).submitted = a.submitted ++ b.submitted := rfl

@[simp] theorem Output.empty_stdout : Output.empty.stdout = [] := rfl

@[simp] theorem Output.empty_stderr : Output.empty.stderr = [] := rfl

@[simp] theorem Output.empty_fileLines : Output.empty.fileLines = [] := rfl

@[simp] theorem Output.empty_submitted : Output.empty.submitted = [] := rfl

@[simp] theorem LogState.submitMain_submitted (st : LogState) (lvl : Level) (msg : String) :
    (st.submitMain lvl msg).submitted = [⟨lvl, msg⟩] := rfl

@[simp] theorem LogState.submitRoot_submitted (st : LogState) (lvl : Level) (msg : String) :
    (st.submitRoot lvl msg).submitted = [⟨lvl, msg⟩] := rfl

@[simp] theorem printOut_stdout (s : String) : (printOut s).stdout = [.printed s] := rfl

@[simp] theorem printOut_stderr (s : String) : (printOut s).stderr = [] := rfl

@[simp] theorem printOut_submitted (s : String) : (printOut s).submitted = [] := rfl

@[simp] theorem printErr_stderr (s : String) : (printErr s).stderr = [.printed s] := rfl

@[simp] theorem printErr_stdout (s : String) : (printErr s).stdout = [] := rfl

@[simp] theorem printErr_submitted (s : String) : (printErr s).submitted = [] := rfl

/-! ## Cleanup characterization -/

theorem cleanupFiles_spec (cutoff : Int) (ls : Bool) (st : LogState) :
    ∀ fl : List LogFile, ∃ out : Output,
      cleanupFiles cutoff ls st fl = .ok (fl.filter (keepFile cutoff), out) ∧
      (∀ r ∈ out.submitted, r.level ≠ .info) ∧
      (∀ f ∈ fl, matchesLogGlob f.name = true →
        (f.statFails = true ∨ (f.mtime < cutoff ∧ f.unlinkFails = true)) →
        ls = true → warnRec f ∈ out.submitted) := by
  intro fl
  induction fl with
  | nil => exact ⟨Output.empty, rfl, by simp, by simp⟩
  | cons f rest ih =>
    obtain ⟨out2, h2eq, h2lvl, h2warn⟩ := ih
    by_cases hm : matchesLogGlob f.name = true
    · by_cases hs : f.statFails = true
      · -- stat raises: warning logged, file kept
        refine ⟨(if ls then st.submitMain .warning
            ("Failed to process log file " ++ f.name ++ ": " ++
              ("stat failed: " ++ f.name)) else Output.empty) ++ out2, ?_, ?_, ?_⟩
        · simp [cleanupFiles, hm, processFile, fileAttempt, hs, PyExc.isException,
            PyExc.message, h2eq, List.filter_cons, keepFile]
        · intro r hr
          rcases ls with _ | _
          · simp only [Bool.false_eq_true, if_false, Output.append_submitted,
              Output.empty_submitted, List.nil_append] at hr
            exact h2lvl r hr
          · simp only [if_true, Output.append_submitted, LogState.submitMain_submitted,
              List.singleton_append, List.mem_cons] at hr
            rcases hr with rfl | hr
            · simp
            · exact h2lvl r hr
        · intro g hg hmg hfail hls
          subst hls
          simp only [List.mem_cons] at hg
          rcases hg with rfl | hg
          · simp [warnRec, fileFailMsg, hs]
          · have := h2warn g hg hmg hfail rfl
            simp only [Output.append_submitted, List.mem_append]
            exact Or.inr this
      · replace hs : f.statFails = false := by simpa using hs
        by_cases hlt : f.mtime < cutoff
        · by_cases hu : f.unlinkFails = true
          · -- unlink raises: warning logged, file kept
            refine ⟨(if ls then st.submitMain .warning
                ("Failed to process log file " ++ f.name ++ ": " ++
                  ("unlink failed: " ++ f.name)) else Output.empty) ++ out2, ?_, ?_, ?_⟩
            · simp [cleanupFiles, hm, processFile, fileAttempt, hs, hlt, hu,
                PyExc.isException, PyExc.message, h2eq, List.filter_cons, keepFile]
            · intro r hr
              rcases ls with _ | _
              · simp only [Bool.false_eq_true, if_false, Output.append_submitted,
                  Output.empty_submitted, List.nil_append] at hr
                exact h2lvl r hr
              · simp only [if_true, Output.append_submitted, LogState.submitMain_submitted,
                  List.singleton_append, List.mem_cons] at hr
                rcases hr with rfl | hr
                · simp
                · exact h2lvl r hr
            · intro g hg hmg hfail hls
              subst hls
              simp only [List.mem_cons] at hg
              rcases hg with rfl | hg
              · simp [warnRec, fileFailMsg, hs]
              · have := h2warn g hg hmg hfail rfl
                simp only [Output.append_submitted, List.mem_append]
                exact Or.inr this
          · replace hu : f.unlinkFails = false := by simpa using hu
            -- old and deletable: removed, debug record when a logger is set
            refine ⟨(if ls then st.submitMain .debug ("Removed old log file: " ++ f.name)
                else Output.empty) ++ out2, ?_, ?_, ?_⟩
            · simp [cleanupFiles, hm, processFile, fileAttempt, hs, hlt, hu, h2eq,
                List.filter_cons, keepFile]
            · intro r hr
              rcases ls with _ | _
              · simp only [Bool.false_eq_true, if_false, Output.append_submitted,
                  Output.empty_submitted, List.nil_append] at hr
                exact h2lvl r hr
              · simp only [if_true, Output.append_submitted, LogState.submitMain_submitted,
                  List.singleton_append, List.mem_cons] at hr
                rcases hr with rfl | hr
                · simp
                · exact h2lvl r hr
            · intro g hg hmg hfail hls
              subst hls
              simp only [List.mem_cons] at hg
              rcases hg with rfl | hg
              · rcases hfail with h | ⟨h1, h2⟩
                · rw [hs] at h; exact absurd h (by simp)
                · rw [hu] at h2; exact absurd h2 (by simp)
              · have := h2warn g hg hmg hfail rfl
                simp only [Output.append_submitted, List.mem_append]
                exact Or.inr this
        · -- newer than the cutoff: kept, no record
          refine ⟨Output.empty ++ out2, ?_, ?_, ?_⟩
          · simp [cleanupFiles, hm, processFile, fileAttempt, hs, hlt, h2eq,
              List.filter_cons, keepFile]
          · intro r hr
            simp only [Output.append_submitted, Output.empty_submitted,
              List.nil_append] at hr
            exact h2lvl r hr
          · intro g hg hmg hfail hls
            subst hls
            simp only [List.mem_cons] at hg
            rcases hg with rfl | hg
            · rcases hfail with h | ⟨h1, h2⟩
              · rw [hs] at h; exact absurd h (by simp)
              · exact absurd h1 hlt
            · have := h2warn g hg hmg hfail rfl
              simp only [Output.append_submitted, List.mem_append]
              exact Or.inr this
    · replace hm : matchesLogGlob f.name = false := by simpa using hm
      refine ⟨out2, ?_, h2lvl, ?_⟩
      · simp [cleanupFiles, hm, h2eq, List.filter_cons, keepFile]
      · intro g hg hmg hfail hls
        simp only [List.mem_cons] at hg
        rcases hg with rfl | hg
        · rw [hm] at hmg; exact absurd hmg (by simp)
        · exact h2warn g hg hmg hfail hls

theorem cleanup_globFail (now : Int) (retention : Nat) (ls : Bool) (st : LogState)
    (fs : FS) (h : fs.globFails = true) :
    cleanup_old_logs now retention ls st fs =
      .ok (fs, if ls then
        st.submitMain .error "Failed to cleanup old logs: glob failed"
        else Output.empty) := by
  simp [cleanup_old_logs, cleanupAttempt, h, PyExc.isException, PyExc.message]

theorem cleanup_globOk (now : Int) (retention : Nat) (ls : Bool) (st : LogState)
    (fs : FS) (h : fs.globFails = false) :
    ∃ out : Output,
      cleanup_old_logs now retention ls st fs =
        .ok (⟨fs.files.filter (keepFile (cutoffTime now retention)), false⟩, out) ∧
      (∀ r ∈ out.submitted, r.level ≠ .info) ∧
      (∀ f ∈ fs.files, matchesLogGlob f.name = true →
        (f.statFails = true ∨ (f.mtime < cutoffTime now retention ∧ f.unlinkFails = true)) →
        ls = true → warnRec f ∈ out.submitted) := by
  obtain ⟨out, heq, hlvl, hwarn⟩ :=
    cleanupFiles_spec (cutoffTime now retention) ls st fs.files
  exact ⟨out, by simp [cleanup_old_logs, cleanupAttempt, h, heq], hlvl, hwarn⟩

theorem cleanup_ok (now : Int) (retention : Nat) (ls : Bool) (st : LogState) (fs : FS) :
    ∃ r, cleanup_old_logs now retention ls st fs = .ok r := by
  by_cases h : fs.globFails = true
  · exact ⟨_, cleanup_globFail now retention ls st fs h⟩
  · obtain ⟨out, heq, -, -⟩ :=
      cleanup_globOk now retention ls st fs (by simpa using h)
    exact ⟨_, heq⟩

theorem cleanup_no_info (now : Int) (retention : Nat) (ls : Bool) (st : LogState)
    (fs : FS) (fs2 : FS) (out : Output)
    (h : cleanup_old_logs now retention ls st fs = .ok (fs2, out)) :
    ∀ r ∈ out.submitted, r.level ≠ .info := by
  by_cases hg : fs.globFails = true
  · rw [cleanup_globFail now retention ls st fs hg] at h
    have h2 : (if ls then st.submitMain .error "Failed to cleanup old logs: glob failed"
        else Output.empty) = out := (by simpa using h : fs = fs2 ∧ _).2
    intro r hr
    rw [← h2] at hr
    rcases ls with _ | _
    · simp at hr
    · simp only [if_true, LogState.submitMain_submitted, List.mem_singleton] at hr
      subst hr
      simp
  · obtain ⟨out2, heq, hlvl, -⟩ :=
      cleanup_globOk now retention ls st fs (by simpa using hg)
    rw [heq] at h
    have h2 : out2 = out := (by simpa using h : _ ∧ out2 = out).2
    subst h2
    exact hlvl

/-! ## `setup_logging` lemmas -/

theorem setup_success (verbose : Bool) (date : String) (now : Int) (retention : Nat)
    (st : LogState) (fs : FS) :
    ∃ fs2 oc,
      cleanup_old_logs now retention true (setupSuccessState verbose date retention st) fs
        = .ok (fs2, oc) ∧
      setup_logging ⟨false, false⟩ verbose date now retention st fs =
        .ok (setupMainLogger verbose date retention,
             setupSuccessState verbose date retention st, fs2,
             oc ++ (setupSuccessState verbose date retention st).submitMain .info
               "Logging system initialized successfully") := by
  obtain ⟨⟨fs2, oc⟩, hc⟩ :=
    cleanup_ok now retention true (setupSuccessState verbose date retention st) fs
  refine ⟨fs2, oc, hc, ?_⟩
  simp only [setup_logging, setupAttempt, Bool.false_eq_true, if_false,
    setupSuccessState, setupMainLogger, logFileName] at hc ⊢
  rw [hc]

theorem setup_mkdirFail (hf : Bool) (verbose : Bool) (date : String) (now : Int)
    (retention : Nat) (st : LogState) (fs : FS) :
    setup_logging ⟨true, hf⟩ verbose date now retention st fs =
      .ok (setupFallback st fs "mkdir failed") := by
  simp [setup_logging, setupAttempt, PyExc.isException, PyExc.message]

theorem setup_fhFail (verbose : Bool) (date : String) (now : Int)
    (retention : Nat) (st : LogState) (fs : FS) :
    setup_logging ⟨false, true⟩ verbose date now retention st fs =
      .ok (setupFallback (setupClearedState verbose st) fs
        "file handler construction failed") := by
  simp [setup_logging, setupAttempt, PyExc.isException, PyExc.message, setupClearedState]

theorem setup_ok (env : SetupEnv) (verbose : Bool) (date : String) (now : Int)
    (retention : Nat) (st : LogState) (fs : FS) :
    ∃ r, setup_logging env verbose date now retention st fs = .ok r := by
  rcases env with ⟨hm, hf⟩
  rcases hm with _ | _
  · rcases hf with _ | _
    · obtain ⟨fs2, oc, -, heq⟩ := setup_success verbose date now retention st fs
      exact ⟨_, heq⟩
    · exact ⟨_, setup_fhFail verbose date now retention st fs⟩
  · exact ⟨_, setup_mkdirFail hf verbose date now retention st fs⟩

theorem setup_no_shutdown (env : SetupEnv) (verbose : Bool) (date : String)
    (now : Int) (retention : Nat) (st : LogState) (fs : FS)
    (lg : Logger) (st2 : LogState) (fs2 : FS) (out : Output)
    (h : setup_logging env verbose date now retention st fs = .ok (lg, st2, fs2, out)) :
    shutdownRec ∉ out.submitted := by
  rcases env with ⟨hm, hf⟩
  rcases hm with _ | _
  · rcases hf with _ | _
    · obtain ⟨fs3, oc, hc, heq⟩ := setup_success verbose date now retention st fs
      rw [heq] at h
      simp only [Except.ok.injEq, Prod.mk.injEq] at h
      obtain ⟨-, -, -, hout⟩ := h
      intro hmem
      rw [← hout] at hmem
      simp only [Output.append_submitted, List.mem_append,
        LogState.submitMain_submitted, List.mem_singleton] at hmem
      rcases hmem with hmem | hmem
      · exact cleanup_no_info _ _ _ _ _ _ _ hc shutdownRec hmem rfl
      · exact absurd hmem (by decide)
    · rw [setup_fhFail verbose date now retention st fs] at h
      simp only [setupFallback, Except.ok.injEq, Prod.mk.injEq] at h
      obtain ⟨-, -, -, hout⟩ := h
      intro hmem
      rw [← hout] at hmem
      simp only [LogState.submitRoot_submitted, List.mem_singleton] at hmem
      exact absurd hmem (by decide)
  · rw [setup_mkdirFail hf verbose date now retention st fs] at h
    simp only [setupFallback, Except.ok.injEq, Prod.mk.injEq] at h
    obtain ⟨-, -, -, hout⟩ := h
    intro hmem
    rw [← hout] at hmem
    simp only [LogState.submitRoot_submitted, List.mem_singleton] at hmem
    exact absurd hmem (by decide)

/-! ## `run` lemmas -/

theorem shutdown_append_split (pre : Output) (st1 : LogState)
    (h : shutdownRec ∉ pre.submitted) :
    ∃ l, (pre ++ st1.submitMain .info "Application shutdown").submitted
        = l ++ [shutdownRec] ∧ shutdownRec ∉ l :=
  ⟨pre.submitted, by simp [shutdownRec], h⟩

theorem run_stub_result (env : SetupEnv) (gr : Except PyExc Bool) (verbose : Bool)
    (date : String) (now : Int) (retention : Nat) (errorId : String)
    (st : LogState) (fs : FS) :
    (∃ c, (run env (stubGreet gr) verbose date now retention errorId st fs).1 = .ok c) ∨
    (∃ c, (run env (stubGreet gr) verbose date now retention errorId st fs).1 =
      .error (.systemExit c)) := by
  obtain ⟨⟨lg, st1, fs1, o1⟩, hs⟩ := setup_ok env verbose date now retention st fs
  rcases gr with e | b
  · rcases e with m | m | _ | c
    · exact Or.inl ⟨1, by simp [run, runTry, stubGreet, hs, runCatch]⟩
    · exact Or.inl ⟨1, by simp [run, runTry, stubGreet, hs, runCatch]⟩
    · exact Or.inl ⟨130, by simp [run, runTry, stubGreet, hs, runCatch]⟩
    · exact Or.inr ⟨c, by simp [run, runTry, stubGreet, hs, runCatch]⟩
  · rcases b with _ | _
    · exact Or.inl ⟨1, by simp [run, runTry, stubGreet, hs]⟩
    · exact Or.inl ⟨0, by simp [run, runTry, stubGreet, hs]⟩

/-! ## Claim theorems -/

/-- C5: when directory enumeration works and no per-file operation fails, the
cleanup pass deletes exactly the files matching the `app_*.log*` pattern whose
last-modified time precedes `now - retention_days`, and preserves every
matching file at or after that cutoff. -/
theorem cleanup_deletes_old_keeps_new (now : Int) (retention : Nat) (ls : Bool)
    (st : LogState) (fs : FS) (hg : fs.globFails = false)
    (hok : ∀ f ∈ fs.files, f.statFails = false ∧ f.unlinkFails = false) :
    ∃ out, cleanup_old_logs now retention ls st fs =
      .ok (⟨fs.files.filter (keepFile (cutoffTime now retention)), false⟩, out) ∧
    ∀ f ∈ fs.files, matchesLogGlob f.name = true →
      ((f.mtime < cutoffTime now retention →
        f ∉ fs.files.filter (keepFile (cutoffTime now retention))) ∧
       (cutoffTime now retention ≤ f.mtime →
        f ∈ fs.files.filter (keepFile (cutoffTime now retention)))) := by
  obtain ⟨out, heq, -, -⟩ := cleanup_globOk now retention ls st fs hg
  refine ⟨out, heq, ?_⟩
  intro f hf hmatch
  obtain ⟨h1, h2⟩ := hok f hf
  constructor
  · intro hold hmem
    have hkeep := (List.mem_filter.mp hmem).2
    simp [keepFile, hmatch, h1, h2, hold] at hkeep
  · intro hnew
    refine List.mem_filter.mpr ⟨hf, ?_⟩
    simp [keepFile, hmatch, h1, h2]
    exact hnew

/-- C5 witness: at `now = 8640000` with 30-day retention, the old dated file
is deleted and the new dated file is preserved. -/
theorem cleanup_deletes_old_keeps_new_witness :
    sampleFS.globFails = false ∧
    (∀ f ∈ sampleFS.files, f.statFails = false ∧ f.unlinkFails = false) ∧
    (∃ out, cleanup_old_logs 8640000 30 true LogState.initial sampleFS =
        .ok (⟨sampleFS.files.filter (keepFile (cutoffTime 8640000 30)), false⟩, out) ∧
      ∀ f ∈ sampleFS.files, matchesLogGlob f.name = true →
        ((f.mtime < cutoffTime 8640000 30 →
          f ∉ sampleFS.files.filter (keepFile (cutoffTime 8640000 30))) ∧
         (cutoffTime 8640000 30 ≤ f.mtime →
          f ∈ sampleFS.files.filter (keepFile (cutoffTime 8640000 30))))) :=
  ⟨rfl, by decide,
    cleanup_deletes_old_keeps_new 8640000 30 true LogState.initial sampleFS rfl (by decide)⟩

/-- C6: `_cleanup_old_logs` always returns normally; an enumeration failure is
caught and logged as an error with the directory untouched; a per-file failure
leaves that file in place, logs a warning for it, and does not prevent the
other old matching files from being deleted. -/
theorem cleanup_never_raises_handles_failures (now : Int) (retention : Nat)
    (st : LogState) (fs : FS) :
    (∃ r, cleanup_old_logs now retention true st fs = .ok r) ∧
    (fs.globFails = true →
      cleanup_old_logs now retention true st fs =
        .ok (fs, st.submitMain .error "Failed to cleanup old logs: glob failed")) ∧
    (fs.globFails = false →
      ∃ out, cleanup_old_logs now retention true st fs =
          .ok (⟨fs.files.filter (keepFile (cutoffTime now retention)), false⟩, out) ∧
        ∀ f ∈ fs.files, matchesLogGlob f.name = true →
          (f.statFails = true ∨ (f.mtime < cutoffTime now retention ∧ f.unlinkFails = true)) →
          f ∈ fs.files.filter (keepFile (cutoffTime now retention)) ∧
            warnRec f ∈ out.submitted) := by
  refine ⟨cleanup_ok now retention true st fs, ?_, ?_⟩
  · intro hg
    rw [cleanup_globFail now retention true st fs hg]
    simp
  · intro hg
    obtain ⟨out, heq, -, hwarn⟩ := cleanup_globOk now retention true st fs hg
    refine ⟨out, heq, ?_⟩
    intro f hf hmatch hfail
    refine ⟨List.mem_filter.mpr ⟨hf, ?_⟩, hwarn f hf hmatch hfail rfl⟩
    rcases hfail with h | ⟨h1, h2⟩
    · simp [keepFile, h]
    · simp [keepFile, h2]

/-- C6 witness: with an undeletable old file present, cleanup still succeeds,
keeps that file, warns about it, and deletes the other old file. -/
theorem cleanup_never_raises_handles_failures_witness :
    ∃ out, cleanup_old_logs 8640000 30 true LogState.initial sampleFS2 =
        .ok (⟨sampleFS2.files.filter (keepFile (cutoffTime 8640000 30)), false⟩, out) ∧
      ∀ f ∈ sampleFS2.files, matchesLogGlob f.name = true →
        (f.statFails = true ∨ (f.mtime < cutoffTime 8640000 30 ∧ f.unlinkFails = true)) →
        f ∈ sampleFS2.files.filter (keepFile (cutoffTime 8640000 30)) ∧
          warnRec f ∈ out.submitted :=
  (cleanup_never_raises_handles_failures 8640000 30 LogState.initial sampleFS2).2.2 rfl

/-- C3: `setup_logging` never raises for any verbosity and failure scenario;
when nothing fails it returns the `main_app` logger configured with the
rotating file sink (threshold DEBUG) and the stdout console sink; when
directory creation or handler construction fails it falls back, from a fresh
process state, to a logger with no handlers of its own backed by a basic
console-only root logger at INFO level, after emitting an error record. -/
theorem setup_logging_total_with_fallback (env : SetupEnv) (verbose : Bool)
    (date : String) (now : Int) (retention : Nat) :
    (∀ st fs, ∃ r, setup_logging env verbose date now retention st fs = .ok r) ∧
    (env.mkdirFails = false → env.fileHandlerFails = false → ∀ st fs,
      ∃ st2 fs2 out,
        setup_logging env verbose date now retention st fs =
          .ok (setupMainLogger verbose date retention, st2, fs2, out) ∧
        (setupMainLogger verbose date retention).handlers =
          [⟨.file (logFileName date) retention, 10⟩,
           ⟨.consoleOut, if verbose then 10 else 20⟩]) ∧
    ((env.mkdirFails = true ∨ env.fileHandlerFails = true) → ∀ fs,
      ∃ lg st2 fs2 out,
        setup_logging env verbose date now retention LogState.initial fs =
          .ok (lg, st2, fs2, out) ∧
        lg.handlers = [] ∧
        st2.root = { level := some 20, handlers := [⟨.consoleErr, 0⟩] } ∧
        ∃ m, (⟨.error, "Failed to setup advanced logging: " ++ m⟩ : Record)
          ∈ out.submitted) := by
  rcases env with ⟨em, ef⟩
  refine ⟨fun st fs => setup_ok ⟨em, ef⟩ verbose date now retention st fs, ?_, ?_⟩
  · intro h1 h2 st fs
    replace h1 : em = false := h1
    replace h2 : ef = false := h2
    subst h1; subst h2
    obtain ⟨fs2, oc, -, heq⟩ := setup_success verbose date now retention st fs
    exact ⟨_, fs2, _, heq, rfl⟩
  · intro h fs
    rcases em with _ | _
    · rcases ef with _ | _
      · rcases h with h | h <;> exact absurd h (by decide)
      · refine ⟨_, _, _, _, setup_fhFail verbose date now retention LogState.initial fs,
          rfl, ?_, "file handler construction failed", ?_⟩
        · simp [setupFallback, setupClearedState, LogState.initial]
        · simp [setupFallback, setupClearedState, LogState.initial]
    · refine ⟨_, _, _, _, setup_mkdirFail ef verbose date now retention LogState.initial fs,
        rfl, ?_, "mkdir failed", ?_⟩
      · simp [setupFallback, LogState.initial]
      · simp [setupFallback, LogState.initial]

/-- C3 witness: with directory creation failing in a fresh process, setup
still returns, the returned logger has no sinks of its own, and the root
logger is the basic INFO console fallback. -/
theorem setup_logging_total_with_fallback_witness :
    (∃ r, setup_logging ⟨true, false⟩ true "20260101" 0 30 LogState.initial emptyFS = .ok r) ∧
    (∃ lg st2 fs2 out,
      setup_logging ⟨true, false⟩ true "20260101" 0 30 LogState.initial emptyFS =
        .ok (lg, st2, fs2, out) ∧
      lg.handlers = [] ∧
      st2.root = { level := some 20, handlers := [⟨.consoleErr, 0⟩] } ∧
      ∃ m, (⟨.error, "Failed to setup advanced logging: " ++ m⟩ : Record)
        ∈ out.submitted) := by
  have h := setup_logging_total_with_fallback ⟨true, false⟩ true "20260101" 0 30
  exact ⟨h.1 LogState.initial emptyFS, h.2.2 (Or.inl rfl) emptyFS⟩

/-- C9 counterexample: a first successful `setup_logging` call attaches two
handlers; a second call whose directory creation fails returns the `main_app`
logger still carrying the first call's handlers (the clearing step was never
reached), so that call does not discard the previous handler state. -/
theorem setup_second_call_keeps_old_handlers :
    setupLogger ⟨true, false⟩ false "20260102" 0 30
        (setupState noFailEnv false "20260101" 0 30 LogState.initial emptyFS) emptyFS =
      { level := some 20,
        handlers := [⟨.file "app_20260101.log" 30, 10⟩, ⟨.consoleOut, 20⟩] } := by
  rfl

/-- C9 amended: a `setup_logging` call that passes directory creation replaces
the prior handlers (with the two new sinks on full success, with none when
handler construction fails after clearing); a call that fails at directory
creation leaves the previously attached handlers in place and returns the
logger still carrying them. -/
theorem setup_handler_replacement (verbose : Bool) (date : String) (now : Int)
    (retention : Nat) (st : LogState) (fs : FS) :
    (∃ fs2 out, setup_logging ⟨false, false⟩ verbose date now retention st fs =
        .ok (setupMainLogger verbose date retention,
             setupSuccessState verbose date retention st, fs2, out) ∧
      (setupSuccessState verbose date retention st).mainApp.handlers =
        [⟨.file (logFileName date) retention, 10⟩,
         ⟨.consoleOut, if verbose then 10 else 20⟩]) ∧
    (setup_logging ⟨false, true⟩ verbose date now retention st fs =
        .ok (setupFallback (setupClearedState verbose st) fs
          "file handler construction failed") ∧
      (setupClearedState verbose st).mainApp.handlers = []) ∧
    (∀ hf, setup_logging ⟨true, hf⟩ verbose date now retention st fs =
        .ok (setupFallback st fs "mkdir failed") ∧
      (setupFallback st fs "mkdir failed").1 = st.mainApp) := by
  refine ⟨?_, ⟨setup_fhFail verbose date now retention st fs, rfl⟩,
    fun hf => ⟨setup_mkdirFail hf verbose date now retention st fs, rfl⟩⟩
  obtain ⟨fs2, oc, -, heq⟩ := setup_success verbose date now retention st fs
  exact ⟨_, _, heq, rfl⟩

/-- C7 counterexample: after a quiet (`verbose=False`) successful setup, the
file sink's threshold is DEBUG (10), yet a debug record emitted through the
returned logger writes nothing to the file — the logger's own INFO level
drops it first. -/
theorem debug_record_dropped_when_quiet :
    (freshSetupState false).mainApp.handlers =
      [⟨.file "app_20260101.log" 30, 10⟩, ⟨.consoleOut, 20⟩] ∧
    ((freshSetupState false).submitMain .debug "probe record").fileLines = [] := by
  exact ⟨rfl, rfl⟩

/-- C7 amended: for every verbosity the file sink's threshold is DEBUG and the
console sink's threshold follows the verbose flag, but a debug record emitted
through the returned logger reaches the log file (and the console) only when
verbose is true, because the logger's effective level filters records first. -/
theorem file_sink_threshold_debug (verbose : Bool) (msg : String) :
    (freshSetupState verbose).mainApp.handlers =
      [⟨.file "app_20260101.log" 30, 10⟩,
       ⟨.consoleOut, if verbose then 10 else 20⟩] ∧
    ((freshSetupState verbose).submitMain .debug msg).fileLines =
      (if verbose then [⟨.debug, msg⟩] else []) ∧
    ((freshSetupState verbose).submitMain .debug msg).stdout =
      (if verbose then [.logLine .debug msg] else []) ∧
    ((freshSetupState verbose).submitMain .info msg).fileLines = [⟨.info, msg⟩] := by
  cases verbose <;> exact ⟨rfl, rfl, rfl, rfl⟩

/-- C2 counterexample: on a successful quiet run, stdout is not exactly the
greeting line — the console handler writes its log lines to stdout too. -/
theorem stdout_not_only_greeting :
    quietRun.2.1.stdout ≠ [.printed "Hello, world!"] := by
  decide

/-- C2 amended: a successful quiet run exits 0 and its stdout contains the
greeting `Hello, world!` exactly once, interleaved with the console sink's
INFO log lines (the console handler is attached to stdout). -/
theorem stdout_greeting_once_among_log_lines :
    quietRun.1 = .ok 0 ∧
    quietRun.2.1.stdout =
      [.logLine .info "Logging system initialized successfully",
       .logLine .info "Application starting",
       .logLine .info "Executing greeting function",
       .printed "Hello, world!",
       .logLine .info "Greeting displayed: Hello, world!",
       .logLine .info "Application completed successfully",
       .logLine .info "Application shutdown"] ∧
    quietRun.2.1.stdout.count (.printed "Hello, world!") = 1 := by
  exact ⟨rfl, rfl, rfl⟩

/-- C10: whenever `greet` returns without raising it returns `True`, and
consequently whenever the greeting step completes without an exception,
`run` exits through the success branch with code 0 — the
`Application completed with errors` branch is unreachable. -/
theorem greet_true_so_error_branch_unreachable (pf : PrintFailure) (st : LogState) :
    (∀ b, (greet pf st).1 = .ok b → b = true) ∧
    (∀ env verbose date now retention errorId st0 fs,
      (∃ b, (greet pf st).1 = .ok b) →
      (run env (greet pf) verbose date now retention errorId st0 fs).1 = .ok 0) := by
  rcases pf with _ | m | _
  · constructor
    · intro b h
      simpa [greet] using h.symm
    · intro env verbose date now retention errorId st0 fs _
      obtain ⟨⟨lg, st1, fs1, o1⟩, hs⟩ := setup_ok env verbose date now retention st0 fs
      simp [run, runTry, greet, hs]
  · constructor
    · intro b h
      simp [greet] at h
    · intro env verbose date now retention errorId st0 fs h
      obtain ⟨b, hb⟩ := h
      simp [greet] at hb
  · constructor
    · intro b h
      simp [greet] at h
    · intro env verbose date now retention errorId st0 fs h
      obtain ⟨b, hb⟩ := h
      simp [greet] at hb

/-- C10 witness: with a healthy `print`, `greet` returns `True` and a concrete
run exits 0. -/
theorem greet_true_witness :
    ((greet .ok LogState.initial).1 = .ok true) ∧
    (run noFailEnv (greet .ok) false "20260101" 0 30 "20260101_000000"
      LogState.initial emptyFS).1 = .ok 0 :=
  ⟨rfl,
    (greet_true_so_error_branch_unreachable .ok LogState.initial).2 noFailEnv false
      "20260101" 0 30 "20260101_000000" LogState.initial emptyFS ⟨true, rfl⟩⟩

/-- C1: for every behavior of the greeting step, `run` returns 0 when it
completes successfully; 1 when it raises `ApplicationError`, printing
`Error: <message>` to stderr; 130 when it raises `KeyboardInterrupt`,
printing an interruption notice to stderr; and 1 when it raises any other
unexpected exception, printing a notice carrying the timestamp-derived
correlation id and a pointer to the log files to stderr. -/
theorem run_exit_code_contract (env : SetupEnv) (verbose : Bool) (date : String)
    (now : Int) (retention : Nat) (errorId : String) (st : LogState) (fs : FS)
    (m : String) :
    (run env (stubGreet (.ok true)) verbose date now retention errorId st fs).1
      = .ok 0 ∧
    ((run env (stubGreet (.error (.applicationError m))) verbose date now retention
        errorId st fs).1 = .ok 1 ∧
      .printed ("Error: " ++ m) ∈
        (run env (stubGreet (.error (.applicationError m))) verbose date now retention
          errorId st fs).2.1.stderr) ∧
    ((run env (stubGreet (.error .keyboardInterrupt)) verbose date now retention
        errorId st fs).1 = .ok 130 ∧
      .printed "\nApplication interrupted by user." ∈
        (run env (stubGreet (.error .keyboardInterrupt)) verbose date now retention
          errorId st fs).2.1.stderr) ∧
    ((run env (stubGreet (.error (.otherError m))) verbose date now retention
        errorId st fs).1 = .ok 1 ∧
      .printed ("An unexpected error occurred. Error ID: " ++ errorId) ∈
        (run env (stubGreet (.error (.otherError m))) verbose date now retention
          errorId st fs).2.1.stderr ∧
      .printed "Please check the log files for more details." ∈
        (run env (stubGreet (.error (.otherError m))) verbose date now retention
          errorId st fs).2.1.stderr) := by
  obtain ⟨⟨lg, st1, fs1, o1⟩, hs⟩ := setup_ok env verbose date now retention st fs
  refine ⟨?_, ⟨?_, ?_⟩, ⟨?_, ?_⟩, ⟨?_, ?_, ?_⟩⟩ <;>
    simp [run, runTry, stubGreet, hs, runCatch]

/-- C4: on every exit path of `run` — success, a falsy greeting result, the
diagnosed-error branch, the interruption branch, the unexpected-error branch,
and a `SystemExit` unwinding through the `finally` — the shutdown notice is
the final record submitted to the logger and is submitted exactly once. -/
theorem run_shutdown_once_final (env : SetupEnv) (verbose : Bool) (date : String)
    (now : Int) (retention : Nat) (errorId : String) (st : LogState) (fs : FS)
    (gr : Except PyExc Bool) :
    ∃ l, (run env (stubGreet gr) verbose date now retention errorId st fs).2.1.submitted
        = l ++ [shutdownRec] ∧ shutdownRec ∉ l := by
  obtain ⟨⟨lg, st1, fs1, o1⟩, hs⟩ := setup_ok env verbose date now retention st fs
  have hns := setup_no_shutdown env verbose date now retention st fs lg st1 fs1 o1 hs
  have key : ∀ pre : Output, shutdownRec ∉ pre.submitted →
      ∀ pre2 : Output,
        pre2 = pre ++ st1.submitMain .info "Application shutdown" →
        ∃ l, pre2.submitted = l ++ [shutdownRec] ∧ shutdownRec ∉ l := by
    intro pre h pre2 h2
    subst h2
    exact shutdown_append_split pre st1 h
  rcases gr with e | b
  · rcases e with m | m | _ | c
    · refine key (o1 ++ st1.submitMain .info "Application starting"
          ++ st1.submitMain .debug (argsMsg verbose) ++ Output.empty
          ++ (st1.submitMain .error ("Application error: " ++ m)
              ++ printErr ("Error: " ++ m)))
          ?_ _ (by simp [run, runTry, stubGreet, hs, runCatch])
      simpa [shutdownRec, argsMsg] using hns
    · refine key (o1 ++ st1.submitMain .info "Application starting"
          ++ st1.submitMain .debug (argsMsg verbose) ++ Output.empty
          ++ (st1.submitMain .error ("Unexpected error [" ++ errorId ++ "]: " ++ m)
              ++ st1.submitMain .debug
                ("Unexpected error traceback [" ++ errorId ++ "]: " ++ m)
              ++ printErr ("An unexpected error occurred. Error ID: " ++ errorId)
              ++ printErr "Please check the log files for more details."))
          ?_ _ (by simp [run, runTry, stubGreet, hs, runCatch])
      simpa [shutdownRec, argsMsg] using hns
    · refine key (o1 ++ st1.submitMain .info "Application starting"
          ++ st1.submitMain .debug (argsMsg verbose) ++ Output.empty
          ++ (st1.submitMain .info "Application interrupted by user"
              ++ printErr "\nApplication interrupted by user."))
          ?_ _ (by simp [run, runTry, stubGreet, hs, runCatch])
      simpa [shutdownRec, argsMsg] using hns
    · refine key (o1 ++ st1.submitMain .info "Application starting"
          ++ st1.submitMain .debug (argsMsg verbose) ++ Output.empty ++ Output.empty)
          ?_ _ (by simp [run, runTry, stubGreet, hs, runCatch])
      simpa [shutdownRec, argsMsg] using hns
  · rcases b with _ | _
    · refine key (o1 ++ st1.submitMain .info "Application starting"
          ++ st1.submitMain .debug (argsMsg verbose) ++ Output.empty
          ++ st1.submitMain .error "Application completed with errors" ++ Output.empty)
          ?_ _ (by simp [run, runTry, stubGreet, hs])
      simpa [shutdownRec, argsMsg] using hns
    · refine key (o1 ++ st1.submitMain .info "Application starting"
          ++ st1.submitMain .debug (argsMsg verbose) ++ Output.empty
          ++ st1.submitMain .info "Application completed successfully" ++ Output.empty)
          ?_ _ (by simp [run, runTry, stubGreet, hs])
      simpa [shutdownRec, argsMsg] using hns

/-- C8: for every failure scenario, `main` terminates through a `SystemExit`
(never letting another exception escape uncaught): the argument-related
`SystemExit`s are re-raised with their codes (2 for bad arguments, 0 for
help), failures inside `run` are classified there, and a failure constructing
the `Application` before logging exists is caught at the entry point, printed
as a critical-startup-error message on stderr, and exits with code 1. -/
theorem main_exits_cleanly (cf : Bool) (p : ParseOutcome) (env : SetupEnv)
    (gr : Except PyExc Bool) (date : String) (now : Int) (errorId : String)
    (fs : FS) :
    (∃ c out, mainFn cf p env (stubGreet gr) date now errorId fs = .exited c out) ∧
    (cf = true →
      mainFn cf p env (stubGreet gr) date now errorId fs =
        .exited 1 (Output.empty
          ++ printErr "Critical error during application startup: Application construction failed"
          ++ printErr "Unable to initialize logging system.") ∧
      .printed "Critical error during application startup: Application construction failed"
        ∈ (Output.empty
          ++ printErr "Critical error during application startup: Application construction failed"
          ++ printErr "Unable to initialize logging system.").stderr) ∧
    (cf = false → p = .badArguments →
      ∃ out, mainFn cf p env (stubGreet gr) date now errorId fs = .exited 2 out) ∧
    (cf = false → p = .helpRequested →
      ∃ out, mainFn cf p env (stubGreet gr) date now errorId fs = .exited 0 out) := by
  rcases cf with _ | _
  · rcases p with v | _ | _
    · refine ⟨?_, by intro h; simp at h, by intro h1 h2; simp at h2,
        by intro h1 h2; simp at h2⟩
      rcases hrun : run env (stubGreet gr) v date now 30 errorId LogState.initial fs
        with ⟨r, out2, stx, fsx⟩
      have hres := run_stub_result env gr v date now 30 errorId LogState.initial fs
      rw [hrun] at hres
      rcases hres with ⟨c, hc⟩ | ⟨c, hc⟩
      · simp only at hc
        subst hc
        exact ⟨c, Output.empty ++ out2, by simp [mainFn, mainBody, parseArgs, hrun]⟩
      · simp only at hc
        subst hc
        exact ⟨c, Output.empty ++ out2,
          by simp [mainFn, mainBody, parseArgs, hrun, PyExc.isException]⟩
    · refine ⟨⟨0, printOut "usage: main.py [-h] [-v]", ?_⟩, by intro h; simp at h,
        by intro h1 h2; simp at h2,
        fun h1 h2 => ⟨printOut "usage: main.py [-h] [-v]", ?_⟩⟩ <;>
        simp [mainFn, mainBody, parseArgs]
    · refine ⟨⟨2, printErr "usage: main.py [-h] [-v]", ?_⟩, by intro h; simp at h,
        fun h1 h2 => ⟨printErr "usage: main.py [-h] [-v]", ?_⟩,
        by intro h1 h2; simp at h2⟩ <;>
        simp [mainFn, mainBody, parseArgs]
  · refine ⟨⟨1, Output.empty
        ++ printErr "Critical error during application startup: Application construction failed"
        ++ printErr "Unable to initialize logging system.", ?_⟩,
      fun h => ⟨?_, by simp⟩, by intro h; simp at h,
      by intro h; simp at h⟩ <;>
      simp [mainFn, mainBody, PyExc.isException, PyExc.message]

/-- C8 witness: a construction failure exits 1 with the critical message on
stderr, and an unrecognized flag exits 2. -/
theorem main_exits_cleanly_witness :
    (mainFn true (.parsed false) noFailEnv (stubGreet (.ok true)) "20260101" 0
        "20260101_000000" emptyFS =
      .exited 1 (Output.empty
        ++ printErr "Critical error during application startup: Application construction failed"
        ++ printErr "Unable to initialize logging system.")) ∧
    (∃ out, mainFn false .badArguments noFailEnv (stubGreet (.ok true)) "20260101" 0
        "20260101_000000" emptyFS = .exited 2 out) :=
  ⟨((main_exits_cleanly true (.parsed false) noFailEnv (.ok true) "20260101" 0
      "20260101_000000" emptyFS).2.1 rfl).1,
   (main_exits_cleanly false .badArguments noFailEnv (.ok true) "20260101" 0
      "20260101_000000" emptyFS).2.2.1 rfl rfl⟩

end GreetApp
